import Mathlib

/-!
Shallow embedding of the Hospital ETL pipeline (two variants:
`run_etl.py`, the PySpark/Dataproc variant, and `etl_cloud_run.py`, the
pandas/Cloud Run variant).  Tables are lists of rows; a nullable column is
an `Option`; Spark's `DoubleType` and pandas numerics are modelled as `ℚ`
(the transformations only compare and copy numeric values, so the model is
exact); timestamps are an abstract record carrying the components the code
extracts (`year`, `month`, `dayofweek`) and a day index for `datediff`.
External parsers (Spark `to_date`/`to_timestamp`/`cast`, pandas
`pd.to_numeric`) are taken as function parameters: an unparsable or missing
input yields `none` (Spark NULL / pandas NaN).
-/

namespace HospitalETL

/-- Abstract timestamp: the calendar components the pipeline extracts plus
a day index used by `datediff`. -/
structure Timestamp where
  year : Int
  month : Int
  dow : Int
  day : Int
deriving DecidableEq, Repr

/-- Spark `concat(a, b, c)`: NULL as soon as one argument is NULL. -/
def sparkConcat3 (a b c : Option String) : Option String :=
  match a, b, c with
  | some x, some y, some z => some (x ++ y ++ z)
  | _, _, _ => none

/-- A concrete fragment of the external numeric parser (pandas
`pd.to_numeric` / Spark `cast`), recording the values those parsers give
on the handful of literals used in concrete scenarios; every other string
is treated as unparsable. Used only to instantiate parser parameters. -/
def numTable : String → Option ℚ :=
  fun s =>
    if s = "200" then some 200
    else if s = "7" then some 7
    else if s = "-50" then some (-50)
    else none

/-- A fixed timestamp used to instantiate `current_timestamp()` /
`datetime.now()` in concrete scenarios. -/
def ts0 : Timestamp := ⟨2024, 1, 1, 0⟩

/-! ## Hospital-analysis entity, PySpark variant (`run_etl.py`) -/

/-- A raw hospital-analysis row as read by `read_hospital_analysis_data`
(`run_etl.py`): the declared schema types `age`, `length_of_stay`,
`satisfaction` as integers and `cost` as double, all nullable. -/
structure AnalysisRow where
  patient_id : Option String
  age : Option Int
  gender : Option String
  condition : Option String
  procedure : Option String
  cost : Option ℚ
  length_of_stay : Option Int
  readmission : Option String
  outcome : Option String
  satisfaction : Option Int
deriving DecidableEq, Repr

/-- A transformed hospital-analysis row (`transform_hospital_analysis_data`):
the `when`-chains leave no NULL in the cleaned columns, so they are plain. -/
structure AnalysisRowT where
  patient_id : Option String
  age : Int
  gender : String
  condition : String
  procedure : String
  cost : ℚ
  length_of_stay : Int
  readmission : String
  outcome : String
  satisfaction : Int
  created_at : Timestamp
deriving DecidableEq, Repr

/-- `when(col.isNull(), "Unknown").otherwise(col)` (run_etl.py:254-280). -/
def fillUnknown : Option String → String
  | none => "Unknown"
  | some v => v

/-- `when(col("readmission").isNull(), "No").otherwise(col)` (run_etl.py:282-285). -/
def fillNo : Option String → String
  | none => "No"
  | some v => v

/-- `when(isNull, 3).when(< 1, 1).when(> 5, 5).otherwise(col)` (run_etl.py:288-297). -/
def cleanSatisfaction : Option Int → Int
  | none => 3
  | some v => if v < 1 then 1 else if v > 5 then 5 else v

/-- `when(isNull, 0).when(< 0, 0).when(> 120, 120).otherwise(col)` (run_etl.py:300-304). -/
def cleanAge : Option Int → Int
  | none => 0
  | some v => if v < 0 then 0 else if v > 120 then 120 else v

/-- `when(isNull, 0.0).when(< 0, 0.0).otherwise(col)` (run_etl.py:307-310). -/
def cleanCost : Option ℚ → ℚ
  | none => 0
  | some v => if v < 0 then 0 else v

/-- `when(isNull, 0).when(< 0, 0).otherwise(col)` (run_etl.py:313-320). -/
def cleanLengthOfStay : Option Int → Int
  | none => 0
  | some v => if v < 0 then 0 else v

/-- Per-row effect of `transform_hospital_analysis_data` (run_etl.py:246-323);
`now` is the value of `current_timestamp()`. -/
def transformAnalysisRow (now : Timestamp) (r : AnalysisRow) : AnalysisRowT :=
  { patient_id := r.patient_id
    age := cleanAge r.age
    gender := fillUnknown r.gender
    condition := fillUnknown r.condition
    procedure := fillUnknown r.procedure
    cost := cleanCost r.cost
    length_of_stay := cleanLengthOfStay r.length_of_stay
    readmission := fillNo r.readmission
    outcome := fillUnknown r.outcome
    satisfaction := cleanSatisfaction r.satisfaction
    created_at := now }

/-- `transform_hospital_analysis_data` (run_etl.py:246-323): every
`withColumn` acts columnwise, so the table-level transform is a map. -/
def transform_hospital_analysis_data (now : Timestamp) (df : List AnalysisRow) :
    List AnalysisRowT :=
  df.map (transformAnalysisRow now)

/-! ## Patient entity, PySpark variant (`run_etl.py`) -/

/-- A raw patient row (`read_patient_data`, run_etl.py:42-70): every column
is declared `StringType`, nullable. -/
structure PatientRow where
  patient_id : Option String
  first_name : Option String
  last_name : Option String
  date_of_birth : Option String
  gender : Option String
  admission_date : Option String
  discharge_date : Option String
  diagnosis : Option String
  created_at : Option String
deriving DecidableEq, Repr

/-- A transformed patient row (`transform_patient_data`). -/
structure PatientRowT where
  patient_id : Option String
  first_name : Option String
  last_name : Option String
  date_of_birth : Option Timestamp
  gender : Option String
  admission_date : Option Timestamp
  discharge_date : Option Timestamp
  diagnosis : Option String
  created_at : Option Timestamp
  age_at_admission : Option Int
  length_of_stay_days : Option Int
  full_name : Option String
  has_valid_dates : Bool
  has_valid_diagnosis : Bool
  processed_at : Timestamp
deriving DecidableEq, Repr

/-- Per-row effect of `transform_patient_data` (run_etl.py:103-153).
`parseDate` and `parseTs` stand for Spark's `to_date`/`to_timestamp` with
their fixed patterns (NULL on failure); `now` is `current_timestamp()`.
Spark arithmetic and `concat` are NULL-strict, and `NULL != ""` is NULL,
which `otherwise(False)` turns into `false`. -/
def transformPatientRow (parseDate parseTs : String → Option Timestamp)
    (now : Timestamp) (r : PatientRow) : PatientRowT :=
  let dob := r.date_of_birth.bind parseDate
  let adm := r.admission_date.bind parseTs
  let dis := r.discharge_date.bind parseTs
  let cre := r.created_at.bind parseTs
  { patient_id := r.patient_id
    first_name := r.first_name
    last_name := r.last_name
    date_of_birth := dob
    gender := r.gender
    admission_date := adm
    discharge_date := dis
    diagnosis := r.diagnosis
    created_at := cre
    age_at_admission :=
      match adm, dob with
      | some a, some d => some (a.year - d.year)
      | _, _ => none
    length_of_stay_days :=
      match dis, adm with
      | some d, some a => some (d.day - a.day)
      | _, _ => none
    full_name := sparkConcat3 r.first_name (some " ") r.last_name
    has_valid_dates := adm.isSome && dis.isSome
    has_valid_diagnosis :=
      match r.diagnosis with
      | some d => !(d == "")
      | none => false
    processed_at := now }

/-- `transform_patient_data` (run_etl.py:103-153) as a table map. -/
def transform_patient_data (parseDate parseTs : String → Option Timestamp)
    (now : Timestamp) (df : List PatientRow) : List PatientRowT :=
  df.map (transformPatientRow parseDate parseTs now)

/-! ## Treatment entity, PySpark variant (`run_etl.py`) -/

/-- A raw treatment row (`read_treatment_data`, run_etl.py:73-100): every
column is declared `StringType`, nullable. -/
structure TreatmentRow where
  treatment_id : Option String
  patient_id : Option String
  treatment_type : Option String
  treatment_date : Option String
  doctor_name : Option String
  treatment_notes : Option String
  cost : Option String
  created_at : Option String
deriving DecidableEq, Repr

/-- A transformed treatment row (`transform_treatment_data`). Note that
`cost` stays nullable: the transform only casts it to double. -/
structure TreatmentRowT where
  treatment_id : Option String
  patient_id : Option String
  treatment_type : Option String
  treatment_date : Option Timestamp
  doctor_name : Option String
  treatment_notes : Option String
  cost : Option ℚ
  created_at : Option Timestamp
  treatment_year : Option Int
  treatment_month : Option Int
  treatment_day_of_week : Option Int
  cost_category : String
  has_valid_cost : Bool
  has_valid_doctor : Bool
  has_valid_treatment_type : Bool
  processed_at : Timestamp
deriving DecidableEq, Repr

/-- The `cost_category` `when`-chain (run_etl.py:182-188).  A NULL cost
makes every comparison NULL, so the chain falls through to `otherwise`. -/
def costCategory (cost : Option ℚ) : String :=
  match cost with
  | some c =>
      if c ≥ 5000 then "High Cost"
      else if c ≥ 1000 then "Medium Cost"
      else if c ≥ 100 then "Low Cost"
      else "Minimal Cost"
  | none => "Minimal Cost"

/-- Per-row effect of `transform_treatment_data` (run_etl.py:156-215).
`castDouble` stands for Spark's `cast(DoubleType())` on a string (NULL on
failure); there is no default substitution for `cost` in this transform. -/
def transformTreatmentRow (castDouble : String → Option ℚ)
    (parseTs : String → Option Timestamp) (now : Timestamp)
    (r : TreatmentRow) : TreatmentRowT :=
  let tdate := r.treatment_date.bind parseTs
  let cre := r.created_at.bind parseTs
  let cost := r.cost.bind castDouble
  { treatment_id := r.treatment_id
    patient_id := r.patient_id
    treatment_type := r.treatment_type
    treatment_date := tdate
    doctor_name := r.doctor_name
    treatment_notes := r.treatment_notes
    cost := cost
    created_at := cre
    treatment_year := tdate.map (fun t => t.year)
    treatment_month := tdate.map (fun t => t.month)
    treatment_day_of_week := tdate.map (fun t => t.dow)
    cost_category := costCategory cost
    has_valid_cost :=
      match cost with
      | some c => decide (0 ≤ c)
      | none => false
    has_valid_doctor :=
      match r.doctor_name with
      | some d => !(d == "")
      | none => false
    has_valid_treatment_type :=
      match r.treatment_type with
      | some t => !(t == "")
      | none => false
    processed_at := now }

/-- `transform_treatment_data` (run_etl.py:156-215) as a table map. -/
def transform_treatment_data (castDouble : String → Option ℚ)
    (parseTs : String → Option Timestamp) (now : Timestamp)
    (df : List TreatmentRow) : List TreatmentRowT :=
  df.map (transformTreatmentRow castDouble parseTs now)

/-! ## Validator (`validate_data`, run_etl.py:326-399)

`validate_data` is called on a dataframe and accesses columns only by
name, so it is embedded over a row type carrying every column it can
touch (each nullable). -/

/-- A row as seen by `validate_data`: the union of the columns the
validator reads across the three entity branches. -/
structure VRow where
  patient_id : Option String
  first_name : Option String
  last_name : Option String
  admission_date : Option Timestamp
  discharge_date : Option Timestamp
  treatment_id : Option String
  treatment_type : Option String
  cost : Option ℚ
  age : Option Int
  gender : Option String
  condition : Option String
deriving DecidableEq, Repr

/-- `df.groupBy(key).count().filter(col("count") > 1).count()`: the number
of distinct key values (NULL forms its own group in Spark `groupBy`)
occurring in more than one row. -/
def duplicateKeyCount (keys : List (Option String)) : Nat :=
  (keys.dedup.filter (fun k => 1 < keys.count k)).length

/-- `validate_data` (run_etl.py:326-399).  Each branch computes the null
counts the Python logs (the unused ones are kept, underscore-bound, to
mirror the source) but only the primary-key null count and the duplicate
count decide the returned value; an unrecognized `data_type` falls through
every branch to the final `return True`. -/
def validate_data (df : List VRow) (data_type : String) : Bool :=
  if data_type = "patient" then
    let null_patient_ids := (df.filter (fun r => r.patient_id.isNone)).length
    let _null_names :=
      (df.filter (fun r => r.first_name.isNone || r.last_name.isNone)).length
    let _null_dates :=
      (df.filter (fun r => r.admission_date.isNone || r.discharge_date.isNone)).length
    let duplicate_patient_ids := duplicateKeyCount (df.map (fun r => r.patient_id))
    if 0 < null_patient_ids ∨ 0 < duplicate_patient_ids then false else true
  else if data_type = "treatment" then
    let null_treatment_ids := (df.filter (fun r => r.treatment_id.isNone)).length
    let _null_patient_ids := (df.filter (fun r => r.patient_id.isNone)).length
    let _null_treatment_types :=
      (df.filter (fun r => r.treatment_type.isNone)).length
    let _null_costs := (df.filter (fun r => r.cost.isNone)).length
    let duplicate_treatment_ids :=
      duplicateKeyCount (df.map (fun r => r.treatment_id))
    if 0 < null_treatment_ids ∨ 0 < duplicate_treatment_ids then false else true
  else if data_type = "hospital_analysis" then
    let null_patient_ids := (df.filter (fun r => r.patient_id.isNone)).length
    let _null_ages := (df.filter (fun r => r.age.isNone)).length
    let _null_genders := (df.filter (fun r => r.gender.isNone)).length
    let _null_conditions := (df.filter (fun r => r.condition.isNone)).length
    let duplicate_patient_ids := duplicateKeyCount (df.map (fun r => r.patient_id))
    if 0 < null_patient_ids ∨ 0 < duplicate_patient_ids then false else true
  else
    true

/-! ## Cloud Run variant (`etl_cloud_run.py`)

The pandas functions touch a handful of named columns and return the same
dataframe, every other column passing through untouched; the untouched
columns are modelled by a type parameter `ρ`. `pd.to_numeric(_,
errors="coerce")` maps an unparsable string to NaN and leaves a missing
value NaN; a following `.fillna(d)` replaces both by `d`. -/

/-- `pd.to_numeric(col, errors="coerce").fillna(d)` on one cell, with
`parseNum` standing for the pandas numeric parser. -/
def toNumericFill (parseNum : String → Option ℚ) (d : ℚ) : Option String → ℚ
  | none => d
  | some s => (parseNum s).getD d

/-- pandas `col.fillna(sentinel)` on one string cell. -/
def fillnaStr (sentinel : String) : Option String → String
  | none => sentinel
  | some v => v

/-- Columns of a patient row touched by `process_patient_data`
(etl_cloud_run.py:31-44); `rest` is the untouched remainder of the row. -/
structure CrPatientRow (ρ : Type) where
  age : Option String
  gender : Option String
  condition : Option String
  rest : ρ
deriving DecidableEq, Repr

/-- A patient row after `process_patient_data`. -/
structure CrPatientRowT (ρ : Type) where
  age : ℚ
  gender : String
  condition : String
  created_at : Timestamp
  rest : ρ
deriving DecidableEq, Repr

/-- `process_patient_data` (etl_cloud_run.py:31-44); `now` is the value of
`datetime.now()`. -/
def process_patient_data {ρ : Type} (parseNum : String → Option ℚ)
    (now : Timestamp) (df : List (CrPatientRow ρ)) : List (CrPatientRowT ρ) :=
  df.map (fun r =>
    { age := toNumericFill parseNum 0 r.age
      gender := fillnaStr "Unknown" r.gender
      condition := fillnaStr "Unknown" r.condition
      created_at := now
      rest := r.rest })

/-- Columns of a treatment row touched by `process_treatment_data`
(etl_cloud_run.py:47-60). -/
structure CrTreatmentRow (ρ : Type) where
  cost : Option String
  duration_days : Option String
  treatment_type : Option String
  rest : ρ
deriving DecidableEq, Repr

/-- A treatment row after `process_treatment_data`. -/
structure CrTreatmentRowT (ρ : Type) where
  cost : ℚ
  duration_days : ℚ
  treatment_type : String
  created_at : Timestamp
  rest : ρ
deriving DecidableEq, Repr

/-- `process_treatment_data` (etl_cloud_run.py:47-60). -/
def process_treatment_data {ρ : Type} (parseNum : String → Option ℚ)
    (now : Timestamp) (df : List (CrTreatmentRow ρ)) :
    List (CrTreatmentRowT ρ) :=
  df.map (fun r =>
    { cost := toNumericFill parseNum 0 r.cost
      duration_days := toNumericFill parseNum 0 r.duration_days
      treatment_type := fillnaStr "Unknown" r.treatment_type
      created_at := now
      rest := r.rest })

/-- Columns of a hospital-analysis row touched by
`process_hospital_analysis_data` (etl_cloud_run.py:63-84). -/
structure CrAnalysisRow (ρ : Type) where
  age : Option String
  cost : Option String
  length_of_stay : Option String
  satisfaction : Option String
  gender : Option String
  condition : Option String
  procedure : Option String
  outcome : Option String
  readmission : Option String
  rest : ρ
deriving DecidableEq, Repr

/-- A hospital-analysis row after `process_hospital_analysis_data`. -/
structure CrAnalysisRowT (ρ : Type) where
  age : ℚ
  cost : ℚ
  length_of_stay : ℚ
  satisfaction : ℚ
  gender : String
  condition : String
  procedure : String
  outcome : String
  readmission : String
  created_at : Timestamp
  rest : ρ
deriving DecidableEq, Repr

/-- `process_hospital_analysis_data` (etl_cloud_run.py:63-84): numeric
columns are coerced and default-filled (0, satisfaction 3), string columns
sentinel-filled; there is no range clamping in this variant. -/
def process_hospital_analysis_data {ρ : Type} (parseNum : String → Option ℚ)
    (now : Timestamp) (df : List (CrAnalysisRow ρ)) :
    List (CrAnalysisRowT ρ) :=
  df.map (fun r =>
    { age := toNumericFill parseNum 0 r.age
      cost := toNumericFill parseNum 0 r.cost
      length_of_stay := toNumericFill parseNum 0 r.length_of_stay
      satisfaction := toNumericFill parseNum 3 r.satisfaction
      gender := fillnaStr "Unknown" r.gender
      condition := fillnaStr "Unknown" r.condition
      procedure := fillnaStr "Unknown" r.procedure
      outcome := fillnaStr "Unknown" r.outcome
      readmission := fillnaStr "No" r.readmission
      created_at := now
      rest := r.rest })

/-! ## Loader -/

/-- Modelled from the spec: the warehouse-side semantics of the load jobs
issued by `write_to_bigquery` (run_etl.py:402-464) and `upload_to_bigquery`
(etl_cloud_run.py:87-103) are executed by BigQuery, outside this
repository; src only sets `writeDisposition=WRITE_TRUNCATE` and
`createDisposition=CREATE_IF_NEEDED`.  Per the spec's glossary, a
truncate-and-replace load "deletes existing table contents and inserts the
new dataset as the sole contents, creating the table if absent".  The
destination is `none` when the table does not exist. -/
def loadTruncateReplace {α : Type} (dest : Option (List α)) (df : List α) :
    Option (List α) :=
  match dest with
  | none => some df
  | some _ => some df

/-- Modelled from the spec: reading back the full contents of a destination
table (an absent table reads as empty). -/
def readTable {α : Type} (dest : Option (List α)) : List α :=
  dest.getD []

/-! ## Concrete rows used in witnesses and counterexamples -/

/-- A PySpark analysis row with `age = 200` and missing gender. -/
def arowAge200 : AnalysisRow :=
  { patient_id := some "p1", age := some 200, gender := none,
    condition := some "flu", procedure := some "checkup", cost := some 10,
    length_of_stay := some 2, readmission := some "No", outcome := some "ok",
    satisfaction := some 4 }

/-- A Cloud-Run analysis row with raw `age = "200"`, `cost = "-50"`,
`satisfaction = "7"`, and every other cell missing. -/
def crRow200 : CrAnalysisRow Unit :=
  { age := some "200", cost := some "-50", length_of_stay := none,
    satisfaction := some "7", gender := none, condition := none,
    procedure := none, outcome := none, readmission := none, rest := () }

/-! ## Helper lemmas -/

theorem cleanAge_bounds (a : Option Int) : 0 ≤ cleanAge a ∧ cleanAge a ≤ 120 := by
  rcases a with _ | v
  · norm_num [cleanAge]
  · simp only [cleanAge]
    split_ifs <;> omega

theorem cleanSatisfaction_bounds (s : Option Int) :
    1 ≤ cleanSatisfaction s ∧ cleanSatisfaction s ≤ 5 := by
  rcases s with _ | v
  · norm_num [cleanSatisfaction]
  · simp only [cleanSatisfaction]
    split_ifs <;> omega

theorem cleanCost_nonneg (c : Option ℚ) : 0 ≤ cleanCost c := by
  rcases c with _ | v
  · norm_num [cleanCost]
  · simp only [cleanCost]
    split_ifs with h
    · exact le_refl 0
    · linarith

theorem cleanLengthOfStay_nonneg (v : Option Int) : 0 ≤ cleanLengthOfStay v := by
  rcases v with _ | w
  · norm_num [cleanLengthOfStay]
  · simp only [cleanLengthOfStay]
    split_ifs <;> omega

theorem mem_transform_analysis {now : Timestamp} {df : List AnalysisRow}
    {r : AnalysisRowT} (h : r ∈ transform_hospital_analysis_data now df) :
    ∃ s ∈ df, r = transformAnalysisRow now s := by
  rcases List.mem_map.mp h with ⟨s, hs, hr⟩
  exact ⟨s, hs, hr.symm⟩

/-! ## Claims -/

/-- C1, counterexample: the Cloud-Run hospital-analysis transformation
(`process_hospital_analysis_data`, etl_cloud_run.py:63-84) does not clamp
age — an input row with `age = 200` comes out with `age = 200 > 120`, so
the claim's bound `age ≤ 120` fails on that variant's table. -/
theorem cloudrun_age_not_clamped :
    (process_hospital_analysis_data numTable ts0 [crRow200]).map
        (fun r => r.age) = [(200 : ℚ)] ∧ ¬ ((200 : ℚ) ≤ 120) := by
  constructor
  · decide
  · norm_num

/-- C1 (amended): in the PySpark variant (`transform_hospital_analysis_data`,
run_etl.py:300-304) every transformed age satisfies `0 ≤ age ≤ 120` — a
null age becomes 0, a negative age becomes 0, an age above 120 becomes 120,
and in particular `age = 200` yields 120 while a missing gender yields
`"Unknown"`.  The Cloud-Run variant only default-fills: a missing age
becomes 0 and a missing gender becomes `"Unknown"`, with no range clamp. -/
theorem analysis_age_clamped :
    (∀ (now : Timestamp) (df : List AnalysisRow) (r : AnalysisRowT),
        r ∈ transform_hospital_analysis_data now df →
          0 ≤ r.age ∧ r.age ≤ 120) ∧
    (∀ (now : Timestamp) (r : AnalysisRow),
        r.age = some 200 → (transformAnalysisRow now r).age = 120) ∧
    (∀ (now : Timestamp) (r : AnalysisRow),
        r.age = none → (transformAnalysisRow now r).age = 0) ∧
    (∀ (now : Timestamp) (r : AnalysisRow) (v : Int),
        r.age = some v → v < 0 → (transformAnalysisRow now r).age = 0) ∧
    (∀ (now : Timestamp) (r : AnalysisRow),
        r.gender = none → (transformAnalysisRow now r).gender = "Unknown") ∧
    (∀ (parseNum : String → Option ℚ) (now : Timestamp) (r : CrAnalysisRow Unit),
        r.age = none → r.gender = none →
          (process_hospital_analysis_data parseNum now [r]).map
              (fun x => (x.age, x.gender)) = [((0 : ℚ), "Unknown")]) := by
  refine ⟨?_, ?_, ?_, ?_, ?_, ?_⟩
  · intro now df r hr
    rcases mem_transform_analysis hr with ⟨s, _, rfl⟩
    simpa [transformAnalysisRow] using cleanAge_bounds s.age
  · intro now r h
    simp [transformAnalysisRow, cleanAge, h]
  · intro now r h
    simp [transformAnalysisRow, cleanAge, h]
  · intro now r v h hv
    simp [transformAnalysisRow, cleanAge, h, hv]
  · intro now r h
    simp [transformAnalysisRow, fillUnknown, h]
  · intro parseNum now r h1 h2
    simp [process_hospital_analysis_data, toNumericFill, fillnaStr, h1, h2]

/-- C1, witness. -/
theorem analysis_age_clamped_witness :
    (0 ≤ (transformAnalysisRow ts0 arowAge200).age ∧
        (transformAnalysisRow ts0 arowAge200).age ≤ 120) ∧
    (transformAnalysisRow ts0 arowAge200).age = 120 ∧
    (transformAnalysisRow ts0 arowAge200).gender = "Unknown" :=
  ⟨analysis_age_clamped.1 ts0 [arowAge200] (transformAnalysisRow ts0 arowAge200)
      (by simp [transform_hospital_analysis_data]),
    analysis_age_clamped.2.1 ts0 arowAge200 rfl,
    analysis_age_clamped.2.2.2.2.1 ts0 arowAge200 rfl⟩

/-- C2, counterexample: the Cloud-Run hospital-analysis transformation
fills a missing satisfaction with 3 but never clamps — an input row with
`satisfaction = 7` comes out with satisfaction `7 > 5`, so the claim's
bound `satisfaction ≤ 5` fails on that variant's table. -/
theorem cloudrun_satisfaction_not_clamped :
    (process_hospital_analysis_data numTable ts0 [crRow200]).map
        (fun r => r.satisfaction) = [(7 : ℚ)] ∧ ¬ ((7 : ℚ) ≤ 5) := by
  constructor
  · decide
  · norm_num

/-- C2 (amended): in the PySpark variant (run_etl.py:288-297) every
transformed satisfaction satisfies `1 ≤ satisfaction ≤ 5`; a null input
becomes exactly 3 (the null case is the first branch of the `when`-chain,
before the range cases), a value below 1 becomes 1 and a value above 5
becomes 5.  The Cloud-Run variant (etl_cloud_run.py:76) replaces a missing
or unparsable satisfaction with exactly 3 but applies no range clamp. -/
theorem analysis_satisfaction_clamped :
    (∀ (now : Timestamp) (df : List AnalysisRow) (r : AnalysisRowT),
        r ∈ transform_hospital_analysis_data now df →
          1 ≤ r.satisfaction ∧ r.satisfaction ≤ 5) ∧
    (∀ (now : Timestamp) (r : AnalysisRow),
        r.satisfaction = none → (transformAnalysisRow now r).satisfaction = 3) ∧
    (∀ (now : Timestamp) (r : AnalysisRow) (v : Int),
        r.satisfaction = some v → v < 1 →
          (transformAnalysisRow now r).satisfaction = 1) ∧
    (∀ (now : Timestamp) (r : AnalysisRow) (v : Int),
        r.satisfaction = some v → 5 < v →
          (transformAnalysisRow now r).satisfaction = 5) ∧
    (∀ (parseNum : String → Option ℚ) (now : Timestamp) (r : CrAnalysisRow Unit),
        r.satisfaction = none →
          (process_hospital_analysis_data parseNum now [r]).map
              (fun x => x.satisfaction) = [(3 : ℚ)]) := by
  refine ⟨?_, ?_, ?_, ?_, ?_⟩
  · intro now df r hr
    rcases mem_transform_analysis hr with ⟨s, _, rfl⟩
    simpa [transformAnalysisRow] using cleanSatisfaction_bounds s.satisfaction
  · intro now r h
    simp [transformAnalysisRow, cleanSatisfaction, h]
  · intro now r v h hv
    simp [transformAnalysisRow, cleanSatisfaction, h, hv]
  · intro now r v h hv
    have hv1 : ¬ (v < 1) := by omega
    simp [transformAnalysisRow, cleanSatisfaction, h, hv, hv1]
  · intro parseNum now r h
    simp [process_hospital_analysis_data, toNumericFill, h]

/-- C2, witness. -/
theorem analysis_satisfaction_clamped_witness :
    (1 ≤ (transformAnalysisRow ts0 arowAge200).satisfaction ∧
        (transformAnalysisRow ts0 arowAge200).satisfaction ≤ 5) ∧
    (transformAnalysisRow ts0
        { arowAge200 with satisfaction := none }).satisfaction = 3 ∧
    (transformAnalysisRow ts0
        { arowAge200 with satisfaction := some 0 }).satisfaction = 1 ∧
    (transformAnalysisRow ts0
        { arowAge200 with satisfaction := some 9 }).satisfaction = 5 :=
  ⟨analysis_satisfaction_clamped.1 ts0 [arowAge200]
      (transformAnalysisRow ts0 arowAge200)
      (by simp [transform_hospital_analysis_data]),
    analysis_satisfaction_clamped.2.1 ts0 _ rfl,
    analysis_satisfaction_clamped.2.2.1 ts0 _ 0 rfl (by norm_num),
    analysis_satisfaction_clamped.2.2.2.1 ts0 _ 9 rfl (by norm_num)⟩

/-- C3, counterexample: the Cloud-Run hospital-analysis transformation
fills a missing cost with 0 but never clamps — an input row with
`cost = -50` comes out with cost `-50 < 0`, so the claim's bound
`cost ≥ 0` fails on that variant's table. -/
theorem cloudrun_cost_not_clamped :
    (process_hospital_analysis_data numTable ts0 [crRow200]).map
        (fun r => r.cost) = [(-50 : ℚ)] ∧ ¬ ((0 : ℚ) ≤ -50) := by
  constructor
  · decide
  · norm_num

/-- C3 (amended): in the PySpark variant (run_etl.py:307-320) every
transformed cost and length_of_stay is ≥ 0 — a null becomes 0 and a
negative value is pulled up to 0.  The Cloud-Run variant replaces a
missing/unparsable cost or length_of_stay with 0 but does not clamp, so a
parsed negative value passes through. -/
theorem analysis_cost_los_nonneg :
    (∀ (now : Timestamp) (df : List AnalysisRow) (r : AnalysisRowT),
        r ∈ transform_hospital_analysis_data now df →
          0 ≤ r.cost ∧ 0 ≤ r.length_of_stay) ∧
    (∀ (now : Timestamp) (r : AnalysisRow),
        r.cost = none → (transformAnalysisRow now r).cost = 0) ∧
    (∀ (now : Timestamp) (r : AnalysisRow) (v : ℚ),
        r.cost = some v → v < 0 → (transformAnalysisRow now r).cost = 0) ∧
    (∀ (now : Timestamp) (r : AnalysisRow),
        r.length_of_stay = none →
          (transformAnalysisRow now r).length_of_stay = 0) ∧
    (∀ (now : Timestamp) (r : AnalysisRow) (v : Int),
        r.length_of_stay = some v → v < 0 →
          (transformAnalysisRow now r).length_of_stay = 0) ∧
    (∀ (parseNum : String → Option ℚ) (now : Timestamp) (r : CrAnalysisRow Unit),
        r.cost = none → r.length_of_stay = none →
          (process_hospital_analysis_data parseNum now [r]).map
              (fun x => (x.cost, x.length_of_stay)) = [((0 : ℚ), (0 : ℚ))]) := by
  refine ⟨?_, ?_, ?_, ?_, ?_, ?_⟩
  · intro now df r hr
    rcases mem_transform_analysis hr with ⟨s, _, rfl⟩
    exact ⟨by simpa [transformAnalysisRow] using cleanCost_nonneg s.cost,
      by simpa [transformAnalysisRow] using cleanLengthOfStay_nonneg s.length_of_stay⟩
  · intro now r h
    simp [transformAnalysisRow, cleanCost, h]
  · intro now r v h hv
    simp [transformAnalysisRow, cleanCost, h, hv]
  · intro now r h
    simp [transformAnalysisRow, cleanLengthOfStay, h]
  · intro now r v h hv
    simp [transformAnalysisRow, cleanLengthOfStay, h, hv]
  · intro parseNum now r h1 h2
    simp [process_hospital_analysis_data, toNumericFill, h1, h2]

/-- C3, witness. -/
theorem analysis_cost_los_nonneg_witness :
    (0 ≤ (transformAnalysisRow ts0 arowAge200).cost ∧
        0 ≤ (transformAnalysisRow ts0 arowAge200).length_of_stay) ∧
    (transformAnalysisRow ts0 { arowAge200 with cost := none }).cost = 0 ∧
    (transformAnalysisRow ts0 { arowAge200 with cost := some (-2) }).cost = 0 ∧
    (transformAnalysisRow ts0
        { arowAge200 with length_of_stay := some (-4) }).length_of_stay = 0 :=
  ⟨analysis_cost_los_nonneg.1 ts0 [arowAge200]
      (transformAnalysisRow ts0 arowAge200)
      (by simp [transform_hospital_analysis_data]),
    analysis_cost_los_nonneg.2.1 ts0 _ rfl,
    analysis_cost_los_nonneg.2.2.1 ts0 _ (-2) rfl (by norm_num),
    analysis_cost_los_nonneg.2.2.2.2.1 ts0 _ (-4) rfl (by norm_num)⟩

/-- C4: the cost-category bucket (run_etl.py:182-188) is a pure total
function of the transformed cost, with the four thresholds tried in order:
`≥ 5000` gives "High Cost", else `≥ 1000` gives "Medium Cost", else
`≥ 100` gives "Low Cost", else "Minimal Cost"; in every transformed
treatment row the `cost_category` column equals that function of the row's
transformed cost, and `5000 ↦ "High Cost"`, `999 ↦ "Low Cost"`,
`50 ↦ "Minimal Cost"`. -/
theorem cost_category_thresholds :
    (∀ (castDouble : String → Option ℚ) (parseTs : String → Option Timestamp)
        (now : Timestamp) (df : List TreatmentRow) (r : TreatmentRowT),
        r ∈ transform_treatment_data castDouble parseTs now df →
          r.cost_category = costCategory r.cost) ∧
    (∀ c : ℚ, 5000 ≤ c → costCategory (some c) = "High Cost") ∧
    (∀ c : ℚ, 1000 ≤ c → c < 5000 → costCategory (some c) = "Medium Cost") ∧
    (∀ c : ℚ, 100 ≤ c → c < 1000 → costCategory (some c) = "Low Cost") ∧
    (∀ c : ℚ, c < 100 → costCategory (some c) = "Minimal Cost") ∧
    costCategory (some 5000) = "High Cost" ∧
    costCategory (some 999) = "Low Cost" ∧
    costCategory (some 50) = "Minimal Cost" := by
  refine ⟨?_, ?_, ?_, ?_, ?_, by decide, by decide, by decide⟩
  · intro castDouble parseTs now df r hr
    rcases List.mem_map.mp hr with ⟨s, _, rfl⟩
    simp [transformTreatmentRow]
  · intro c hc
    simp only [costCategory]
    rw [if_pos (by linarith)]
  · intro c hc hc'
    simp only [costCategory]
    rw [if_neg (by linarith), if_pos (by linarith)]
  · intro c hc hc'
    simp only [costCategory]
    rw [if_neg (by linarith), if_neg (by linarith), if_pos (by linarith)]
  · intro c hc
    simp only [costCategory]
    rw [if_neg (by linarith), if_neg (by linarith), if_neg (by linarith)]

/-- A treatment row with raw cost `"200"`. -/
def trow200 : TreatmentRow :=
  { treatment_id := some "t1", patient_id := some "p1",
    treatment_type := some "surgery", treatment_date := some "d",
    doctor_name := some "doc", treatment_notes := none, cost := some "200",
    created_at := some "d" }

/-- C4, witness. -/
theorem cost_category_thresholds_witness :
    (transformTreatmentRow numTable (fun _ => some ts0) ts0 trow200).cost_category =
      costCategory (transformTreatmentRow numTable (fun _ => some ts0) ts0
        trow200).cost ∧
    costCategory (some 6000) = "High Cost" ∧
    costCategory (some 2000) = "Medium Cost" ∧
    costCategory (some 200) = "Low Cost" ∧
    costCategory (some 99) = "Minimal Cost" :=
  ⟨cost_category_thresholds.1 numTable (fun _ => some ts0) ts0 [trow200]
      (transformTreatmentRow numTable (fun _ => some ts0) ts0 trow200)
      (by simp [transform_treatment_data]),
    cost_category_thresholds.2.1 6000 (by norm_num),
    cost_category_thresholds.2.2.1 2000 (by norm_num) (by norm_num),
    cost_category_thresholds.2.2.2.1 200 (by norm_num) (by norm_num),
    cost_category_thresholds.2.2.2.2.1 99 (by norm_num)⟩

/-- A treatment row with a missing raw cost cell. -/
def trowNoCost : TreatmentRow :=
  { treatment_id := some "t1", patient_id := some "p1",
    treatment_type := some "surgery", treatment_date := some "d",
    doctor_name := some "doc", treatment_notes := none, cost := none,
    created_at := some "d" }

/-- C5, counterexample: the PySpark treatment transformation
(run_etl.py:161-170) only casts `cost` to double and substitutes no
default, so a row whose raw cost cell is missing (or unparsable, here
`"abc"` which the cast cannot parse) still has a null cost after the
transformation — the treatment cost column does contain nulls. -/
theorem treatment_cost_null_after_transform :
    (transform_treatment_data numTable (fun _ => some ts0) ts0
        [trowNoCost, { trowNoCost with cost := some "abc" }]).map
      (fun r => r.cost) = [(none : Option ℚ), none] := by
  decide

/-- C5 (amended): the Cloud-Run variant's numeric coercion
(etl_cloud_run.py:55-56, 71-76) replaces every missing or unparsable
numeric cell with its default (0 for cost/duration/age/length-of-stay, 3
for satisfaction), and the PySpark hospital-analysis transform null-fills
its numeric columns, so those columns hold no nulls; but the PySpark
treatment transform merely casts cost to double, leaving a missing or
unparsable cost null (it is only reported via `has_valid_cost` and the
validator's null-cost count). -/
theorem numeric_coercion_defaults :
    (∀ (parseNum : String → Option ℚ) (now : Timestamp) (r : CrTreatmentRow Unit),
        r.cost = none →
          (process_treatment_data parseNum now [r]).map (fun x => x.cost) =
            [(0 : ℚ)]) ∧
    (∀ (parseNum : String → Option ℚ) (now : Timestamp) (r : CrTreatmentRow Unit)
        (s : String), r.cost = some s → parseNum s = none →
          (process_treatment_data parseNum now [r]).map (fun x => x.cost) =
            [(0 : ℚ)]) ∧
    (∀ (parseNum : String → Option ℚ) (now : Timestamp) (r : CrTreatmentRow Unit),
        r.duration_days = none →
          (process_treatment_data parseNum now [r]).map
            (fun x => x.duration_days) = [(0 : ℚ)]) ∧
    (∀ (parseNum : String → Option ℚ) (now : Timestamp) (r : CrAnalysisRow Unit),
        r.satisfaction = none → r.age = none →
          (process_hospital_analysis_data parseNum now [r]).map
            (fun x => (x.satisfaction, x.age)) = [((3 : ℚ), (0 : ℚ))]) ∧
    (∀ (castDouble : String → Option ℚ) (parseTs : String → Option Timestamp)
        (now : Timestamp) (r : TreatmentRow), r.cost = none →
          (transformTreatmentRow castDouble parseTs now r).cost = none) ∧
    (∀ (castDouble : String → Option ℚ) (parseTs : String → Option Timestamp)
        (now : Timestamp) (r : TreatmentRow) (s : String),
        r.cost = some s → castDouble s = none →
          (transformTreatmentRow castDouble parseTs now r).cost = none) := by
  refine ⟨?_, ?_, ?_, ?_, ?_, ?_⟩
  · intro parseNum now r h
    simp [process_treatment_data, toNumericFill, h]
  · intro parseNum now r s h hp
    simp [process_treatment_data, toNumericFill, h, hp]
  · intro parseNum now r h
    simp [process_treatment_data, toNumericFill, h]
  · intro parseNum now r h1 h2
    simp [process_hospital_analysis_data, toNumericFill, h1, h2]
  · intro castDouble parseTs now r h
    simp [transformTreatmentRow, h]
  · intro castDouble parseTs now r s h hp
    simp [transformTreatmentRow, h, hp]

/-- C5, witness. -/
theorem numeric_coercion_defaults_witness :
    (process_treatment_data numTable ts0
        [({ cost := none, duration_days := none,
            treatment_type := none, rest := () } : CrTreatmentRow Unit)]).map
      (fun x => x.cost) = [(0 : ℚ)] ∧
    (process_treatment_data numTable ts0
        [({ cost := some "abc", duration_days := none,
            treatment_type := none, rest := () } : CrTreatmentRow Unit)]).map
      (fun x => x.cost) = [(0 : ℚ)] ∧
    (transformTreatmentRow numTable (fun _ => some ts0) ts0 trowNoCost).cost =
      none :=
  ⟨numeric_coercion_defaults.1 numTable ts0 _ rfl,
    numeric_coercion_defaults.2.1 numTable ts0 _ "abc" rfl (by decide),
    numeric_coercion_defaults.2.2.2.2.1 numTable (fun _ => some ts0) ts0
      trowNoCost rfl⟩

theorem gate_false_iff (a b : Nat) :
    (if 0 < a ∨ 0 < b then false else true) = false ↔ 0 < a ∨ 0 < b := by
  split_ifs with h <;> simp [h]

/-- An otherwise-valid validator row with the given primary keys. -/
def vrow (pid tid : Option String) : VRow :=
  { patient_id := pid, first_name := some "f", last_name := some "l",
    admission_date := some ts0, discharge_date := some ts0,
    treatment_id := tid, treatment_type := some "ty", cost := some 1,
    age := some 3, gender := some "F", condition := some "flu" }

/-- A table of otherwise-valid rows with exactly one duplicated primary
key (`"a"` occurs twice). -/
def dupTable : List VRow :=
  [vrow (some "a") (some "t1"), vrow (some "a") (some "t2"),
    vrow (some "b") (some "t3")]

/-- C6: for each recognized entity tag, `validate_data` (run_etl.py:326-399)
returns `false` exactly when the null-primary-key count is positive or the
duplicate-primary-key group count is positive (patient and
hospital_analysis key on `patient_id`, treatment on `treatment_id`); the
other null counts each branch computes never affect the returned value;
and on a table with exactly one duplicated key and otherwise-valid rows it
returns `false` with a duplicate-group count of exactly 1.  (The embedding
is a pure function of the table, matching the source, which only filters,
groups and counts: the table is never modified.) -/
theorem validate_data_key_gate :
    (∀ df : List VRow,
        (validate_data df "patient" = false ↔
          0 < (df.filter (fun r => r.patient_id.isNone)).length ∨
            0 < duplicateKeyCount (df.map (fun r => r.patient_id)))) ∧
    (∀ df : List VRow,
        (validate_data df "treatment" = false ↔
          0 < (df.filter (fun r => r.treatment_id.isNone)).length ∨
            0 < duplicateKeyCount (df.map (fun r => r.treatment_id)))) ∧
    (∀ df : List VRow,
        (validate_data df "hospital_analysis" = false ↔
          0 < (df.filter (fun r => r.patient_id.isNone)).length ∨
            0 < duplicateKeyCount (df.map (fun r => r.patient_id)))) ∧
    (validate_data dupTable "patient" = false ∧
      duplicateKeyCount (dupTable.map (fun r => r.patient_id)) = 1 ∧
      (dupTable.filter (fun r => r.patient_id.isNone)).length = 0) := by
  refine ⟨?_, ?_, ?_, by decide⟩
  · intro df
    have h : validate_data df "patient" =
        (if 0 < (df.filter (fun r => r.patient_id.isNone)).length ∨
              0 < duplicateKeyCount (df.map (fun r => r.patient_id))
          then false else true) := rfl
    rw [h]
    exact gate_false_iff _ _
  · intro df
    have h : validate_data df "treatment" =
        (if 0 < (df.filter (fun r => r.treatment_id.isNone)).length ∨
              0 < duplicateKeyCount (df.map (fun r => r.treatment_id))
          then false else true) := rfl
    rw [h]
    exact gate_false_iff _ _
  · intro df
    have h : validate_data df "hospital_analysis" =
        (if 0 < (df.filter (fun r => r.patient_id.isNone)).length ∨
              0 < duplicateKeyCount (df.map (fun r => r.patient_id))
          then false else true) := rfl
    rw [h]
    exact gate_false_iff _ _

/-- C7: every per-entity transformation, in both variants, is a per-row
map: it adds or overwrites columns but never adds or removes a row, so
the transformed table has exactly as many rows as the input. -/
theorem transforms_preserve_row_count :
    (∀ (parseDate parseTs : String → Option Timestamp) (now : Timestamp)
        (df : List PatientRow),
        (transform_patient_data parseDate parseTs now df).length = df.length) ∧
    (∀ (castDouble : String → Option ℚ) (parseTs : String → Option Timestamp)
        (now : Timestamp) (df : List TreatmentRow),
        (transform_treatment_data castDouble parseTs now df).length =
          df.length) ∧
    (∀ (now : Timestamp) (df : List AnalysisRow),
        (transform_hospital_analysis_data now df).length = df.length) ∧
    (∀ (ρ : Type) (parseNum : String → Option ℚ) (now : Timestamp)
        (df : List (CrPatientRow ρ)),
        (process_patient_data parseNum now df).length = df.length) ∧
    (∀ (ρ : Type) (parseNum : String → Option ℚ) (now : Timestamp)
        (df : List (CrTreatmentRow ρ)),
        (process_treatment_data parseNum now df).length = df.length) ∧
    (∀ (ρ : Type) (parseNum : String → Option ℚ) (now : Timestamp)
        (df : List (CrAnalysisRow ρ)),
        (process_hospital_analysis_data parseNum now df).length = df.length) := by
  refine ⟨?_, ?_, ?_, ?_, ?_, ?_⟩ <;> intros <;>
    simp [transform_patient_data, transform_treatment_data,
      transform_hospital_analysis_data, process_patient_data,
      process_treatment_data, process_hospital_analysis_data]

/-- C8: under the spec-modelled truncate-and-replace load semantics
(`WRITE_TRUNCATE` + `CREATE_IF_NEEDED`, run_etl.py:450-458 /
etl_cloud_run.py:95-101), loading a table and immediately reading the
destination back yields exactly the input table's contents — hence the
same row count — regardless of the destination's prior contents, and the
destination table exists after the load. -/
theorem load_round_trip :
    ∀ (α : Type) (dest : Option (List α)) (df : List α),
      readTable (loadTruncateReplace dest df) = df ∧
      (loadTruncateReplace dest df).isSome = true ∧
      (readTable (loadTruncateReplace dest df)).length = df.length := by
  intro α dest df
  rcases dest with _ | t <;> simp [loadTruncateReplace, readTable]

/-- C9: an entity-type tag other than `"patient"`, `"treatment"` and
`"hospital_analysis"` falls through every branch of `validate_data`
(run_etl.py:326-399) to the final `return True`, so an unrecognized tag
can never cause a validation failure. -/
theorem validate_unknown_tag_passes :
    ∀ (df : List VRow) (tag : String),
      tag ≠ "patient" → tag ≠ "treatment" → tag ≠ "hospital_analysis" →
        validate_data df tag = true := by
  intro df tag h1 h2 h3
  unfold validate_data
  rw [if_neg h1, if_neg h2, if_neg h3]

/-- C9, witness. -/
theorem validate_unknown_tag_passes_witness :
    validate_data dupTable "weather" = true :=
  validate_unknown_tag_passes dupTable "weather" (by decide) (by decide)
    (by decide)

/-- C10: `transform_patient_data` (run_etl.py:129-132) leaves the name
columns untouched (no sentinel filling) and derives `full_name` with
Spark's NULL-strict `concat(first_name, lit(" "), last_name)`: when both
names are present it is their concatenation around a space, and it is null
whenever `first_name` or `last_name` is null. -/
theorem full_name_from_names :
    ∀ (parseDate parseTs : String → Option Timestamp) (now : Timestamp)
      (r : PatientRow),
      ((transformPatientRow parseDate parseTs now r).first_name =
        r.first_name) ∧
      ((transformPatientRow parseDate parseTs now r).last_name =
        r.last_name) ∧
      ((transformPatientRow parseDate parseTs now r).full_name =
        sparkConcat3 r.first_name (some " ") r.last_name) ∧
      (∀ f l, r.first_name = some f → r.last_name = some l →
        (transformPatientRow parseDate parseTs now r).full_name =
          some (f ++ " " ++ l)) ∧
      ((r.first_name = none ∨ r.last_name = none) →
        (transformPatientRow parseDate parseTs now r).full_name = none) := by
  intro parseDate parseTs now r
  refine ⟨rfl, rfl, rfl, ?_, ?_⟩
  · intro f l hf hl
    simp [transformPatientRow, sparkConcat3, hf, hl]
  · intro h
    rcases h with h | h
    · simp [transformPatientRow, sparkConcat3, h]
    · rcases hfn : r.first_name with _ | f <;>
        simp [transformPatientRow, sparkConcat3, h, hfn]

/-- A patient row with both names present. -/
def prowJohn : PatientRow :=
  { patient_id := some "p1", first_name := some "John",
    last_name := some "Doe", date_of_birth := some "1990-01-01",
    gender := some "M", admission_date := some "a",
    discharge_date := some "d", diagnosis := some "flu",
    created_at := some "c" }

/-- C10, witness. -/
theorem full_name_from_names_witness :
    (transformPatientRow (fun _ => some ts0) (fun _ => some ts0) ts0
        prowJohn).full_name = some ("John" ++ " " ++ "Doe") ∧
    (transformPatientRow (fun _ => some ts0) (fun _ => some ts0) ts0
        { prowJohn with last_name := none }).full_name = none :=
  ⟨(full_name_from_names (fun _ => some ts0) (fun _ => some ts0) ts0
      prowJohn).2.2.2.1 "John" "Doe" rfl rfl,
    (full_name_from_names (fun _ => some ts0) (fun _ => some ts0) ts0
      { prowJohn with last_name := none }).2.2.2.2 (Or.inr rfl)⟩

end HospitalETL
